import Mathlib

/-!
Shallow embedding of the Auto-App-Builder server (`src/server.js`).

The server exposes `POST /api/build`, validates a shared secret, acknowledges
the caller, and runs `processBuildRequest` in the background.  That function
executes a round-1 build (prompt assembly, LLM generation, repository
creation, three file writes, Pages enablement), a round-2 revision (read
`index.html`, revision prompt, LLM generation, sha-guarded file update), and
then a shared post-round phase (read latest commit, compute the Pages URL,
optional 5 s propagation delay, and a retrying POST to the evaluation URL).

The embedding is trace-based: every outbound call of the JavaScript code is
recorded as an `Event`, in program order.  The external collaborators
(GitHub API, the Gemini models, base64 decoding, the callback endpoint) are
modelled by an `Env` of response values; the two failure sources the code
reacts to — the sha-guarded update of round 2 and the per-attempt outcome of
the notification POST — are fallible, everything else responds with the
value `Env` supplies.  Base64 transport of file contents is elided as a
bijective encoding: events record the plain string contents that the code
encodes/decodes at the call boundary.  JavaScript exceptions are modelled
with `Except`; the `try`/`catch` of `processBuildRequest` only logs, so the
observable behaviour is the event trace produced up to the error.
-/

namespace AutoAppBuilder

/-- One attachment of a build request: `{name, url}` where `url` is a data
URL carrying an inline base64 payload after the first comma. -/
structure Attachment where
  name : String
  url : String
deriving Repr, DecidableEq

/-- The JSON body of `POST /api/build` (`req.body` in `src/server.js`).
Fields the code reads but that may be absent in JSON are `Option`s. -/
structure BuildRequest where
  task : String
  round : Int
  brief : String
  attachments : Option (List Attachment)
  checks : Option (List String)
  email : String
  nonce : String
  evaluation_url : String
  secret : Option String
deriving Repr, DecidableEq

/-- The completion payload posted to `evaluation_url` (lines 217–221 of
`src/server.js`). -/
structure NotificationPayload where
  email : String
  task : String
  round : Int
  nonce : String
  repo_url : String
  commit_sha : String
  pages_url : String
deriving Repr, DecidableEq

/-- Errors a round can raise: JavaScript `TypeError`s from reading into
`undefined`, and the optimistic-concurrency failure of the sha-guarded
`createOrUpdateFileContents` call of round 2. -/
inductive JsError where
  | typeError (msg : String)
  | staleSha
deriving Repr, DecidableEq

/-- One outbound call of `processBuildRequest` / the request handler,
recorded in program order. -/
inductive Event where
  | respond (status : Nat)
  | getAuthenticated
  | llmGenerate (model : String) (prompt : String)
  | createRepo (name : String) (isPrivate : Bool)
  | upsertFile (owner repo path message content : String) (sha : Option String)
  | enablePages (owner repo branch path : String)
  | getContent (owner repo path : String)
  | getCommit (owner repo ref : String)
  | sleep (ms : Nat)
  | notifyPost (url : String) (payload : NotificationPayload)
  | logFinalNotifyFailure
deriving Repr, DecidableEq

/-- Responses of the external collaborators.  `indexFile` is the
`(base64 content, sha)` pair `octokit.repos.getContent` returns for
`index.html`; `upsertOk` is whether the sha-guarded round-2 update succeeds
(it fails when the retained sha is stale); `notify i` is whether the
`i`-th (0-based) `axios.post` to the evaluation URL succeeds. -/
structure Env where
  login : String
  decodeB64 : String → String
  llmFlash : String → String
  llmPro : String → String
  indexFile : String × String
  upsertOk : Bool
  commitSha : String
  notify : Nat → Bool

/-- JavaScript `Array.prototype.join(sep)`. -/
def joinArr (sep : String) : List String → String
  | [] => ""
  | [x] => x
  | x :: y :: rest => x ++ sep ++ joinArr sep (y :: rest)

/-- JavaScript `String.prototype.startsWith(pre)`. -/
def jsStartsWith (s pre : String) : Bool :=
  pre.data.isPrefixOf s.data

/-- JavaScript `String.prototype.substring(a, b)`: both indices are clamped
to the string length and swapped when out of order. -/
def jsSubstring (s : String) (a b : Nat) : String :=
  let len := s.data.length
  let a' := min a len
  let b' := min b len
  String.mk ((s.data.drop (min a' b')).take (max a' b' - min a' b'))

/-- JavaScript `String.prototype.trim()`: whitespace removed from both
ends. -/
def jsTrim (s : String) : String :=
  String.mk (((s.data.dropWhile Char.isWhitespace).reverse.dropWhile
    Char.isWhitespace).reverse)

/-- Lines 101–103 / 191–193 of `src/server.js`: if the generated text starts
with the literal fence marker, drop the first 7 and last 3 characters and
trim the remainder; otherwise keep the text unchanged. -/
def stripFence (s : String) : String :=
  if jsStartsWith s "```html" then jsTrim (jsSubstring s 7 (s.data.length - 3))
  else s

/-- Lines 64–70 of `src/server.js`: the `attachmentContent` string folded
into the round-1 prompt.  `attachments[0].url.split(',')[1]` is `undefined`
when the url has no comma, and `Buffer.from(undefined, 'base64')` throws a
`TypeError`. -/
def attachmentText (decodeB64 : String → String) :
    List Attachment → Except JsError String
  | [] => .ok "No attachments."
  | first :: _ =>
    match (first.url.splitOn ",")[1]? with
    | none => .error (.typeError "first argument must not be undefined")
    | some payload =>
      .ok ("The project uses an attachment named '" ++ first.name
        ++ "'. Its content is:\n\"\"\"\n" ++ decodeB64 payload ++ "\n\"\"\"")

/-- Fixed prefix of the round-1 prompt template (lines 72–82). -/
def r1Pre : String :=
  "\nYou are an expert front-end web developer specializing in creating clean, efficient, and self-contained HTML files.\n## TASK\nYour task is to create a single, self-contained `index.html` file based on the user's brief.\n## CONSTRAINTS\n1. You MUST generate a single `index.html` file.\n2. All CSS and JavaScript code MUST be embedded directly within the HTML file using `<style>` and `<script>` tags.\n3. Do not use any external file paths. External libraries from CDNs are allowed if requested.\n## INPUT & CONTEXT\n**Brief:**\n\"\"\"\n"

/-- Round-1 prompt template between the brief and the attachment context. -/
def r1Mid1 : String := "\n\"\"\"\n**Attachments:**\n"

/-- Round-1 prompt template between the attachment context and the joined
evaluation checks. -/
def r1Mid2 : String :=
  "\n**Evaluation Checks:**\nThe code will be evaluated against these checks:\n\"\"\"\n"

/-- Fixed suffix of the round-1 prompt template (lines 91–93). -/
def r1Suf : String :=
  "\n\"\"\"\n## OUTPUT\nProvide ONLY the complete HTML code for the `index.html` file, enclosed in a single markdown code block."

/-- The `llmPrompt` template literal of round 1 (lines 72–93). -/
def round1Prompt (brief attachmentContent checksJoined : String) : String :=
  r1Pre ++ brief ++ r1Mid1 ++ attachmentContent ++ r1Mid2 ++ checksJoined ++ r1Suf

/-- Fixed prefix of the round-2 revision prompt template (lines 164–175). -/
def r2Pre : String :=
  "\nYou are an expert front-end web developer who is excellent at modifying and refactoring existing code to add new features.\n## TASK\nYour task is to modify the provided HTML code to implement a new feature described in the brief.\n## CONSTRAINTS\n1. You MUST return the complete, updated code for the single `index.html` file.\n2. All new CSS and JavaScript code must also be embedded directly within the HTML file.\n3. Ensure the original functionality still works correctly alongside the new feature.\n## INPUT & CONTEXT\n**Original Code:**\nThis is the existing `index.html` file that you need to modify:\n```html\n"

/-- Round-2 prompt template between the original code and the new brief. -/
def r2Mid : String := "\n```\n**New Brief for Revision:**\n\"\"\"\n"

/-- Fixed suffix of the round-2 revision prompt template (lines 182–183). -/
def r2Suf : String :=
  "\n\"\"\"\n## OUTPUT\nProvide ONLY the complete, updated HTML code for the `index.html` file, enclosed in a single markdown code block."

/-- The `revisionPrompt` template literal of round 2 (lines 164–183). -/
def round2Prompt (originalHtml brief : String) : String :=
  r2Pre ++ originalHtml ++ r2Mid ++ brief ++ r2Suf

/-- The fixed `licenseContent` string (lines 111–131). -/
def licenseContent : String :=
  "MIT License\n\nCopyright (c) 2025 [Chenchu Vinay Boga]\n\nPermission is hereby granted, free of charge, to any person obtaining a copy\nof this software and associated documentation files (the \"Software\"), to deal\nin the Software without restriction, including without limitation the rights\nto use, copy, modify, merge, publish, distribute, sublicense, and/or sell\ncopies of the Software, and to permit persons to whom the Software is\nfurnished to do so, subject to the following conditions:\n\nThe above copyright notice and this permission notice shall be included in all\ncopies or substantial portions of the Software.\n\nTHE SOFTWARE IS PROVIDED \"AS IS\", WITHOUT WARRANTY OF ANY KIND, EXPRESS OR\nIMPLIED, INCLUDING BUT NOT LIMITED TO THE WARRANTIES OF MERCHANTABILITY,\nFITNESS FOR A PARTICULAR PURPOSE AND NONINFRINGEMENT. IN NO EVENT SHALL THE\nAUTHORS OR COPYRIGHT HOLDERS BE LIABLE FOR ANY CLAIM, DAMAGES OR OTHER\nLIABILITY, WHETHER IN AN ACTION OF CONTRACT, TORT OR OTHERWISE, ARISING FROM,\nOUT OF OR IN CONNECTION WITH THE SOFTWARE OR THE USE OR OTHER DEALINGS IN THE\nSOFTWARE."

/-- The `readmeContent` template literal (line 133). -/
def readmeContent (repoName brief : String) : String :=
  "# " ++ repoName
    ++ "\n\n## Summary\n\nThis project was automatically generated to fulfill the following brief: *"
    ++ brief
    ++ "*\n\n## Setup & Usage\n\nThis is a static web page. Simply open the deployed GitHub Pages URL to view and use the application.\n\n## Code Explanation\n\nThe application is contained within a single `index.html` file. All styling is provided via a `<style>` tag and all logic is contained within a `<script>` tag.\n\n## License\n\nThis project is licensed under the MIT License."

/-- ROUND1_BUILD (lines 60–154): prompt assembly, LLM generation, repository
creation, the three `createOrUpdateFileContents` calls, and Pages
enablement.  A `TypeError` from the attachment decode or from
`body.checks.join` (when `checks` is absent) aborts before any call past
authentication. -/
def round1 (env : Env) (body : BuildRequest) (login : String) :
    List Event × Except JsError Unit :=
  let brief := body.brief
  let attachments := body.attachments.getD []
  match attachmentText env.decodeB64 attachments with
  | .error e => ([], .error e)
  | .ok attachmentContent =>
    match body.checks with
    | none => ([], .error (.typeError "cannot read join of undefined"))
    | some checks =>
      let llmPrompt := round1Prompt brief attachmentContent (joinArr "\n" checks)
      let generatedHtml := stripFence (env.llmFlash llmPrompt)
      let commitMessage := "Initial commit: Add application files"
      ([Event.llmGenerate "gemini-2.5-flash" llmPrompt,
        Event.createRepo body.task false,
        Event.upsertFile login body.task "index.html" commitMessage generatedHtml none,
        Event.upsertFile login body.task "README.md" commitMessage
          (readmeContent body.task brief) none,
        Event.upsertFile login body.task "LICENSE" commitMessage licenseContent none,
        Event.enablePages login body.task "main" "/"], .ok ())

/-- ROUND2_REVISE (lines 155–202): read `index.html` (content + sha),
revision prompt, LLM generation, and the sha-guarded
`createOrUpdateFileContents` call, which fails when the sha is stale. -/
def round2 (env : Env) (body : BuildRequest) (login : String) :
    List Event × Except JsError Unit :=
  let originalHtml := env.decodeB64 env.indexFile.1
  let revisionPrompt := round2Prompt originalHtml body.brief
  let updatedHtml := stripFence (env.llmPro revisionPrompt)
  let events :=
    [Event.getContent login body.task "index.html",
     Event.llmGenerate "gemini-pro" revisionPrompt,
     Event.upsertFile login body.task "index.html"
       "Feat: Update application based on round 2 brief" updatedHtml
       (some env.indexFile.2)]
  if env.upsertOk then (events, .ok ()) else (events, .error .staleSha)

/-- The retry loop of lines 225–235 with `fuel` iterations remaining and
loop counter `i`: each attempt posts the payload; a failed attempt warns
and sleeps `2^i * 1000` ms (also after the last attempt); success breaks.
Returns the trace and the `notificationSuccess` flag. -/
def notifyFrom (notify : Nat → Bool) (url : String) (p : NotificationPayload) :
    Nat → Nat → List Event × Bool
  | _, 0 => ([], false)
  | i, fuel + 1 =>
    if notify i then ([Event.notifyPost url p], true)
    else
      let rest := notifyFrom notify url p (i + 1) fuel
      (Event.notifyPost url p :: Event.sleep (2 ^ i * 1000) :: rest.1, rest.2)

/-- Lines 224–238: the 4-attempt retry loop followed by the final-failure
log when `notificationSuccess` is still false. -/
def notifySection (notify : Nat → Bool) (url : String) (p : NotificationPayload) :
    List Event :=
  let r := notifyFrom notify url p 0 4
  if r.2 then r.1 else r.1 ++ [Event.logFinalNotifyFailure]

/-- The `notificationPayload` object of lines 209 and 217–221: the request
fields echoed plus the derived repository URL, commit sha and Pages URL. -/
def mkPayload (env : Env) (body : BuildRequest) (login : String) :
    NotificationPayload where
  email := body.email
  task := body.task
  round := body.round
  nonce := body.nonce
  repo_url := "https://github.com/" ++ login ++ "/" ++ body.task
  commit_sha := env.commitSha
  pages_url := "https://" ++ login ++ ".github.io/" ++ body.task ++ "/"

/-- Lines 204–238: read the latest commit on `main`, compute the Pages URL,
sleep 5 s when `round === 1`, assemble the payload and run the notification
loop. -/
def postRound (env : Env) (body : BuildRequest) (login : String) : List Event :=
  Event.getCommit login body.task "heads/main"
    :: ((if body.round = 1 then [Event.sleep 5000] else [])
        ++ notifySection env.notify body.evaluation_url
             (mkPayload env body login))

/-- `processBuildRequest` (lines 52–243) before its `catch`: authenticate,
dispatch on `round` (any other value falls through both branches), then the
shared post-round phase.  An error skips everything after its raise
point. -/
def processBuildRequestE (env : Env) (body : BuildRequest) :
    List Event × Except JsError Unit :=
  let login := env.login
  let roundRes :=
    if body.round = 1 then round1 env body login
    else if body.round = 2 then round2 env body login
    else ([], .ok ())
  match roundRes with
  | (tr, .error e) => (Event.getAuthenticated :: tr, .error e)
  | (tr, .ok _) =>
    (Event.getAuthenticated :: (tr ++ postRound env body login), .ok ())

/-- The observable trace of `processBuildRequest`: its `catch` only logs, so
errors leave the trace produced so far. -/
def processBuildRequest (env : Env) (body : BuildRequest) : List Event :=
  (processBuildRequestE env body).1

/-- The `POST /api/build` handler (lines 32–47): secret mismatch answers 403
and stops; otherwise 200 is sent and `processBuildRequest` runs. -/
def handleBuild (studentSecret : Option String) (env : Env)
    (body : BuildRequest) : List Event :=
  if body.secret ≠ studentSecret then [Event.respond 403]
  else Event.respond 200 :: processBuildRequest env body

/-- Recognizes LLM generation events. -/
def isLlmEv : Event → Bool
  | .llmGenerate _ _ => true
  | _ => false

/-- Recognizes repository-creation events. -/
def isCreateRepoEv : Event → Bool
  | .createRepo _ _ => true
  | _ => false

/-- Recognizes file-upsert events. -/
def isUpsertEv : Event → Bool
  | .upsertFile _ _ _ _ _ _ => true
  | _ => false

/-- Recognizes Pages-enablement events. -/
def isPagesEv : Event → Bool
  | .enablePages _ _ _ _ => true
  | _ => false

/-- Recognizes notification-POST events. -/
def isNotifyEv : Event → Bool
  | .notifyPost _ _ => true
  | _ => false

/-- A concrete environment for witness instantiations. -/
def env0 : Env where
  login := "octo"
  decodeB64 := id
  llmFlash := fun _ => "<html><body>app</body></html>"
  llmPro := fun _ => "<html><body>app v2</body></html>"
  indexFile := ("<html>old</html>", "sha-old-1")
  upsertOk := true
  commitSha := "abc123"
  notify := fun _ => true

/-- A concrete round-1 request for witness instantiations. -/
def body1 : BuildRequest where
  task := "todo-app"
  round := 1
  brief := "A todo app"
  attachments := none
  checks := some ["has a button", "loads fast"]
  email := "user@example.com"
  nonce := "n-1"
  evaluation_url := "https://eval.example/cb"
  secret := some "s3cret"

/-- A concrete payload for witness instantiations. -/
def pay0 : NotificationPayload where
  email := "user@example.com"
  task := "todo-app"
  round := 1
  nonce := "n-1"
  repo_url := "https://github.com/octo/todo-app"
  commit_sha := "abc123"
  pages_url := "https://octo.github.io/todo-app/"

lemma infix_append_right {α : Type} {l t : List α} (u : List α)
    (h : l <:+: t) : l <:+: t ++ u :=
  h.trans (List.prefix_append t u).isInfix

lemma infix_append_left {α : Type} {l t : List α} (u : List α)
    (h : l <:+: t) : l <:+: u ++ t :=
  h.trans (List.suffix_append u t).isInfix

lemma mem_infix_joinArr (sep : String) :
    ∀ (l : List String) (x : String), x ∈ l →
      x.data <:+: (joinArr sep l).data
  | [], x, h => by simp at h
  | [y], x, h => by
    simp at h
    subst h
    exact List.infix_refl _
  | y :: z :: rest, x, h => by
    rcases List.mem_cons.mp h with h' | h'
    · subst h'
      simp only [joinArr, String.data_append]
      exact infix_append_right _ (infix_append_right _ (List.infix_refl _))
    · have ih := mem_infix_joinArr sep (z :: rest) x h'
      simp only [joinArr, String.data_append]
      exact infix_append_left _ ih

lemma mem_notifyFrom {notify : Nat → Bool} {url : String}
    {p : NotificationPayload} :
    ∀ (fuel i : Nat) (e : Event), e ∈ (notifyFrom notify url p i fuel).1 →
      e = Event.notifyPost url p ∨ ∃ k, e = Event.sleep (2 ^ k * 1000) := by
  intro fuel
  induction fuel with
  | zero => intro i e h; simp [notifyFrom] at h
  | succ n ih =>
    intro i e h
    by_cases hn : notify i
    · simp [notifyFrom, hn] at h
      exact Or.inl h
    · simp only [notifyFrom, hn, Bool.false_eq_true, if_false,
        List.mem_cons] at h
      rcases h with h | h | h
      · exact Or.inl h
      · exact Or.inr ⟨i, h⟩
      · exact ih (i + 1) e h

lemma mem_notifySection {notify : Nat → Bool} {url : String}
    {p : NotificationPayload} {e : Event}
    (h : e ∈ notifySection notify url p) :
    e = Event.notifyPost url p ∨ (∃ k, e = Event.sleep (2 ^ k * 1000)) ∨
      e = Event.logFinalNotifyFailure := by
  simp only [notifySection] at h
  by_cases hs : (notifyFrom notify url p 0 4).2 = true
  · rw [if_pos hs] at h
    rcases mem_notifyFrom 4 0 e h with h' | h'
    · exact Or.inl h'
    · exact Or.inr (Or.inl h')
  · rw [if_neg hs] at h
    rcases List.mem_append.mp h with h | h
    · rcases mem_notifyFrom 4 0 e h with h' | h'
      · exact Or.inl h'
      · exact Or.inr (Or.inl h')
    · exact Or.inr (Or.inr (List.mem_singleton.mp h))

lemma notifyFrom_succ (notify : Nat → Bool) (url : String)
    (p : NotificationPayload) (i fuel : Nat) :
    notifyFrom notify url p i (fuel + 1) =
      if notify i then ([Event.notifyPost url p], true)
      else (Event.notifyPost url p :: Event.sleep (2 ^ i * 1000) ::
              (notifyFrom notify url p (i + 1) fuel).1,
            (notifyFrom notify url p (i + 1) fuel).2) := rfl

lemma notifySection_cons (notify : Nat → Bool) (url : String)
    (p : NotificationPayload) :
    ∃ t, notifySection notify url p = Event.notifyPost url p :: t := by
  simp only [notifySection]
  by_cases hn : notify 0 = true
  · rw [show (4 : Nat) = 3 + 1 from rfl, notifyFrom_succ, if_pos hn]
    exact ⟨[], rfl⟩
  · rw [show (4 : Nat) = 3 + 1 from rfl, notifyFrom_succ, if_neg hn]
    by_cases h2 : (notifyFrom notify url p 1 3).2 = true
    · simp only [h2, if_true]
      exact ⟨_, rfl⟩
    · simp only [Bool.not_eq_true] at h2
      simp only [h2, Bool.false_eq_true, if_false]
      exact ⟨_, rfl⟩

lemma notifySection_countP_eq_zero {notify : Nat → Bool} {url : String}
    {p : NotificationPayload} (q : Event → Bool)
    (hq1 : ∀ u pl, q (Event.notifyPost u pl) = false)
    (hq2 : ∀ ms, q (Event.sleep ms) = false)
    (hq3 : q Event.logFinalNotifyFailure = false) :
    (notifySection notify url p).countP q = 0 := by
  rw [List.countP_eq_zero]
  intro e he
  rcases mem_notifySection he with h | ⟨k, h⟩ | h <;> subst h <;>
    simp [hq1, hq2, hq3]

/-- A concrete round-2 request for witness instantiations. -/
def body2 : BuildRequest :=
  { body1 with round := 2, brief := "Add a dark mode" }

/-- A concrete unknown-round request for witness instantiations. -/
def body3 : BuildRequest :=
  { body1 with round := 3 }

/-- A concrete round-1 request without a checks field, for witness
instantiations. -/
def body10 : BuildRequest :=
  { body1 with checks := none }

lemma notifySection_filter_eq_nil (notify : Nat → Bool) (url : String)
    (p : NotificationPayload) (q : Event → Bool)
    (hq1 : ∀ u pl, q (Event.notifyPost u pl) = false)
    (hq2 : ∀ ms, q (Event.sleep ms) = false)
    (hq3 : q Event.logFinalNotifyFailure = false) :
    (notifySection notify url p).filter q = [] := by
  rw [List.filter_eq_nil_iff]
  intro e he
  rcases mem_notifySection he with h | ⟨k, h⟩ | h <;> subst h <;>
    simp [hq1, hq2, hq3]

lemma notifySection_countP_zero (notify : Nat → Bool) (url : String)
    (p : NotificationPayload) (q : Event → Bool)
    (hq1 : ∀ u pl, q (Event.notifyPost u pl) = false)
    (hq2 : ∀ ms, q (Event.sleep ms) = false)
    (hq3 : q Event.logFinalNotifyFailure = false) :
    (notifySection notify url p).countP q = 0 := by
  rw [List.countP_eq_zero]
  intro e he
  rcases mem_notifySection he with h | ⟨k, h⟩ | h <;> subst h <;>
    simp [hq1, hq2, hq3]

lemma processBuildRequest_round1_eq (env : Env) (body : BuildRequest)
    (C : List String) (ac : String)
    (hr : body.round = 1) (hc : body.checks = some C)
    (ha : attachmentText env.decodeB64 (body.attachments.getD []) = .ok ac) :
    processBuildRequest env body =
      Event.getAuthenticated
        :: Event.llmGenerate "gemini-2.5-flash"
             (round1Prompt body.brief ac (joinArr "\n" C))
        :: Event.createRepo body.task false
        :: Event.upsertFile env.login body.task "index.html"
             "Initial commit: Add application files"
             (stripFence (env.llmFlash
               (round1Prompt body.brief ac (joinArr "\n" C)))) none
        :: Event.upsertFile env.login body.task "README.md"
             "Initial commit: Add application files"
             (readmeContent body.task body.brief) none
        :: Event.upsertFile env.login body.task "LICENSE"
             "Initial commit: Add application files" licenseContent none
        :: Event.enablePages env.login body.task "main" "/"
        :: Event.getCommit env.login body.task "heads/main"
        :: Event.sleep 5000
        :: notifySection env.notify body.evaluation_url
             (mkPayload env body env.login) := by
  simp [processBuildRequest, processBuildRequestE, round1, postRound, hr,
    hc, ha]

lemma processBuildRequest_round2_eq (env : Env) (body : BuildRequest)
    (hr : body.round = 2) (hok : env.upsertOk = true) :
    processBuildRequest env body =
      Event.getAuthenticated
        :: Event.getContent env.login body.task "index.html"
        :: Event.llmGenerate "gemini-pro"
             (round2Prompt (env.decodeB64 env.indexFile.1) body.brief)
        :: Event.upsertFile env.login body.task "index.html"
             "Feat: Update application based on round 2 brief"
             (stripFence (env.llmPro
               (round2Prompt (env.decodeB64 env.indexFile.1) body.brief)))
             (some env.indexFile.2)
        :: Event.getCommit env.login body.task "heads/main"
        :: notifySection env.notify body.evaluation_url
             (mkPayload env body env.login) := by
  simp [processBuildRequest, processBuildRequestE, round2, postRound, hr,
    hok]

lemma processBuildRequestE_round2_stale (env : Env) (body : BuildRequest)
    (hr : body.round = 2) (hfail : env.upsertOk = false) :
    processBuildRequestE env body =
      ([Event.getAuthenticated,
        Event.getContent env.login body.task "index.html",
        Event.llmGenerate "gemini-pro"
          (round2Prompt (env.decodeB64 env.indexFile.1) body.brief),
        Event.upsertFile env.login body.task "index.html"
          "Feat: Update application based on round 2 brief"
          (stripFence (env.llmPro
            (round2Prompt (env.decodeB64 env.indexFile.1) body.brief)))
          (some env.indexFile.2)],
       Except.error JsError.staleSha) := by
  simp [processBuildRequestE, round2, hr, hfail]

lemma processBuildRequest_other_eq (env : Env) (body : BuildRequest)
    (h1 : body.round ≠ 1) (h2 : body.round ≠ 2) :
    processBuildRequest env body =
      Event.getAuthenticated
        :: Event.getCommit env.login body.task "heads/main"
        :: notifySection env.notify body.evaluation_url
             (mkPayload env body env.login) := by
  simp [processBuildRequest, processBuildRequestE, postRound, h1, h2]

lemma two_pow_mul_1000_ne_5000 (k : Nat) : 2 ^ k * 1000 ≠ 5000 := by
  intro h
  have h5 : 2 ^ k = 5 := by omega
  rcases k with _ | (_ | (_ | n))
  · norm_num at h5
  · norm_num at h5
  · norm_num at h5
  · have hp : 2 ^ (n + 3) = 2 ^ n * 8 := by ring
    have h1 : 1 ≤ 2 ^ n := Nat.one_le_two_pow
    omega

/-- C5: a request whose secret differs from the configured shared secret is
answered 403 and triggers no generation, publish or notification call:
the handler trace is exactly the 403 response. -/
theorem c5_bad_secret_rejected (ss : Option String) (env : Env)
    (body : BuildRequest) (h : body.secret ≠ ss) :
    handleBuild ss env body = [Event.respond 403] := by
  simp [handleBuild, h]

/-- C5 witness: a concrete request with a wrong secret is rejected. -/
theorem c5_bad_secret_rejected_witness :
    handleBuild (some "other-secret") env0 body1 = [Event.respond 403] :=
  c5_bad_secret_rejected (some "other-secret") env0 body1 (by decide)

/-- C6: for an accepted request the 200 acknowledgement is the first event
of the handler trace, so every generation or publish call of the background
processing occurs strictly after it. -/
theorem c6_ack_before_processing (ss : Option String) (env : Env)
    (body : BuildRequest) (h : body.secret = ss) :
    (handleBuild ss env body).head? = some (Event.respond 200) ∧
    ∀ i e, (handleBuild ss env body)[i]? = some e →
      (isLlmEv e = true ∨ isUpsertEv e = true ∨
       isCreateRepoEv e = true ∨ isPagesEv e = true) → 0 < i := by
  have hb : handleBuild ss env body =
      Event.respond 200 :: processBuildRequest env body := by
    simp [handleBuild, h]
  refine ⟨by rw [hb]; rfl, ?_⟩
  intro i e hi hev
  rcases i with _ | i
  · rw [hb] at hi
    simp only [List.getElem?_cons_zero, Option.some.injEq] at hi
    subst hi
    rcases hev with h' | h' | h' | h' <;> simp [isLlmEv, isUpsertEv,
      isCreateRepoEv, isPagesEv] at h'
  · omega

/-- C6 witness: a concrete accepted request has the acknowledgement first. -/
theorem c6_ack_before_processing_witness :
    (handleBuild (some "s3cret") env0 body1).head? =
      some (Event.respond 200) :=
  (c6_ack_before_processing (some "s3cret") env0 body1 rfl).1

/-- C9: authorization is a strict equality between the request's secret and
the configured value — the handler rejects exactly when they differ — and
with no secret configured a request that omits the secret field passes and
is processed. -/
theorem c9_strict_equality_auth (env : Env) (body : BuildRequest)
    (ss : Option String) :
    (handleBuild ss env body = [Event.respond 403] ↔ body.secret ≠ ss) ∧
    (body.secret = none →
      handleBuild none env body =
        Event.respond 200 :: processBuildRequest env body) := by
  constructor
  · by_cases hsec : body.secret = ss
    · simp [handleBuild, hsec]
    · simp [handleBuild, hsec]
  · intro h
    simp [handleBuild, h]

/-- C9 witness: with no configured secret, a concrete request omitting the
secret is accepted and processed. -/
theorem c9_strict_equality_auth_witness :
    handleBuild none env0
        { body1 with secret := none } =
      Event.respond 200 ::
        processBuildRequest env0 { body1 with secret := none } :=
  (c9_strict_equality_auth env0 { body1 with secret := none } none).2 rfl

/-- C3 counterexample: on the concrete response
`"..html\n<p>hi</p>\n.."` (fenced), the code returns the trimmed interior
`"<p>hi</p>"`, not the byte-for-byte interior `"\n<p>hi</p>\n"` that the
claim predicts: the `trim()` call changes the interior bytes. -/
theorem c3_fence_counterexample :
    stripFence "```html\n<p>hi</p>\n```" = "<p>hi</p>" ∧
    stripFence "```html\n<p>hi</p>\n```" ≠ "\n<p>hi</p>\n" := by
  constructor
  · rfl
  · decide

/-- C3 (amended): a response of the form marker ++ interior ++ closing
fence is reduced to the interior with surrounding whitespace trimmed (the
code drops the 7-character marker and the final 3 characters, then trims);
a response not starting with the marker passes through unchanged. -/
theorem c3_fence_strip_amended (s mid : String) :
    (s = "```html" ++ mid ++ "```" → stripFence s = jsTrim mid) ∧
    (jsStartsWith s "```html" = false → stripFence s = s) := by
  have key : ∀ l m r : List Char, l.length = 7 → r.length = 3 →
      jsSubstring (String.mk (l ++ m ++ r)) 7 ((l ++ m ++ r).length - 3) =
        String.mk m := by
    intro l m r hl hr
    simp only [jsSubstring]
    congr 1
    have hlen : (l ++ m ++ r).length = m.length + 10 := by
      rw [List.length_append, List.length_append]
      omega
    rw [hlen]
    have h1 : min 7 (m.length + 10) = 7 := by omega
    have h2 : min (m.length + 10 - 3) (m.length + 10) = m.length + 7 := by
      omega
    rw [h1, h2]
    have h3 : min 7 (m.length + 7) = 7 := by omega
    have h4 : max 7 (m.length + 7) = m.length + 7 := by omega
    rw [h3, h4, List.append_assoc]
    rw [List.drop_left' hl]
    have h5 : m.length + 7 - 7 = m.length := by omega
    rw [h5]
    exact List.take_left' rfl
  constructor
  · intro hs
    subst hs
    have hpre : jsStartsWith ("```html" ++ mid ++ "```") "```html" = true := by
      unfold jsStartsWith
      rw [List.isPrefixOf_iff_prefix]
      simp only [String.data_append]
      rw [List.append_assoc]
      exact List.prefix_append _ _
    unfold stripFence
    rw [if_pos hpre]
    congr 1
    have hs2 : ("```html" ++ mid ++ "```" : String) =
        String.mk ("```html".data ++ mid.data ++ "```".data) := by
      apply String.ext
      rw [String.data_append, String.data_append]
    rw [hs2]
    exact (key "```html".data mid.data "```".data rfl rfl).trans
      (String.ext rfl)
  · intro h
    unfold stripFence
    rw [if_neg (by simp [h])]

/-- C3 amended witness: a fenced response with newline-padded interior is
trimmed to the interior, and an unfenced response passes through. -/
theorem c3_fence_strip_amended_witness :
    stripFence ("```html" ++ "\n<b>x</b>\n" ++ "```") = jsTrim "\n<b>x</b>\n" ∧
    stripFence "<html>plain</html>" = "<html>plain</html>" :=
  ⟨(c3_fence_strip_amended _ "\n<b>x</b>\n").1 rfl,
   (c3_fence_strip_amended "<html>plain</html>" "").2 (by decide)⟩

/-- C1: an accepted round-1 request with brief B and checks C (whose
attachment step decodes) makes exactly one LLM generation call, creates
exactly one repository, writes exactly the three files `index.html`,
`README.md` and `LICENSE` via upsert calls, enables Pages exactly once, and
the generation prompt contains B verbatim and every element of C
verbatim. -/
theorem c1_round1_build (env : Env) (body : BuildRequest)
    (C : List String) (ac : String)
    (hr : body.round = 1) (hc : body.checks = some C)
    (ha : attachmentText env.decodeB64 (body.attachments.getD []) = .ok ac) :
    ∃ P, (processBuildRequest env body).filter isLlmEv =
        [Event.llmGenerate "gemini-2.5-flash" P] ∧
      (processBuildRequest env body).countP isCreateRepoEv = 1 ∧
      (processBuildRequest env body).filter isUpsertEv =
        [Event.upsertFile env.login body.task "index.html"
           "Initial commit: Add application files"
           (stripFence (env.llmFlash P)) none,
         Event.upsertFile env.login body.task "README.md"
           "Initial commit: Add application files"
           (readmeContent body.task body.brief) none,
         Event.upsertFile env.login body.task "LICENSE"
           "Initial commit: Add application files" licenseContent none] ∧
      (processBuildRequest env body).countP isPagesEv = 1 ∧
      body.brief.data <:+: P.data ∧
      ∀ s ∈ C, s.data <:+: P.data := by
  have htr := processBuildRequest_round1_eq env body C ac hr hc ha
  have hf1 := notifySection_filter_eq_nil env.notify body.evaluation_url
    (mkPayload env body env.login) isLlmEv
    (fun _ _ => rfl) (fun _ => rfl) rfl
  have hc1 := notifySection_countP_zero env.notify body.evaluation_url
    (mkPayload env body env.login) isCreateRepoEv
    (fun _ _ => rfl) (fun _ => rfl) rfl
  have hf2 := notifySection_filter_eq_nil env.notify body.evaluation_url
    (mkPayload env body env.login) isUpsertEv
    (fun _ _ => rfl) (fun _ => rfl) rfl
  have hc2 := notifySection_countP_zero env.notify body.evaluation_url
    (mkPayload env body env.login) isPagesEv
    (fun _ _ => rfl) (fun _ => rfl) rfl
  refine ⟨round1Prompt body.brief ac (joinArr "\n" C), ?_, ?_, ?_, ?_, ?_, ?_⟩
  · rw [htr]
    simp [isLlmEv, hf1]
  · rw [htr]
    simp [isCreateRepoEv, hc1, List.countP_cons]
  · rw [htr]
    simp [isUpsertEv, hf2]
  · rw [htr]
    simp [isPagesEv, hc2, List.countP_cons]
  · simp only [round1Prompt, String.data_append]
    exact infix_append_right _ (infix_append_right _ (infix_append_right _
      (infix_append_right _ (infix_append_right _
        (infix_append_left _ (List.infix_refl _))))))
  · intro s hs
    simp only [round1Prompt, String.data_append]
    exact infix_append_right _ (infix_append_left _
      (mem_infix_joinArr "\n" C s hs))

/-- C1 witness: the round-1 effect counts at a concrete request. -/
theorem c1_round1_build_witness :
    (processBuildRequest env0 body1).countP isCreateRepoEv = 1 ∧
    (processBuildRequest env0 body1).countP isPagesEv = 1 := by
  obtain ⟨P, -, h1, -, h2, -, -⟩ := c1_round1_build env0 body1
    ["has a button", "loads fast"] "No attachments." rfl rfl rfl
  exact ⟨h1, h2⟩

/-- C2: an accepted round-2 request sends the LLM a prompt containing the
existing document verbatim in full and the new brief; every upsert of the
round carries exactly the version token obtained from the read of
`index.html`; and when that token is stale the round aborts with no
notification call. -/
theorem c2_round2_revise (env : Env) (body : BuildRequest)
    (hr : body.round = 2) :
    (∃ P, Event.llmGenerate "gemini-pro" P ∈ processBuildRequest env body ∧
      (env.decodeB64 env.indexFile.1).data <:+: P.data ∧
      body.brief.data <:+: P.data) ∧
    (∀ o r pa ms ct sh,
      Event.upsertFile o r pa ms ct sh ∈ processBuildRequest env body →
        sh = some env.indexFile.2) ∧
    (env.upsertOk = false →
      ∀ u p, Event.notifyPost u p ∉ processBuildRequest env body) := by
  have hD : (env.decodeB64 env.indexFile.1).data <:+:
      (round2Prompt (env.decodeB64 env.indexFile.1) body.brief).data := by
    simp only [round2Prompt, String.data_append]
    exact infix_append_right _ (infix_append_right _ (infix_append_right _
      (infix_append_left _ (List.infix_refl _))))
  have hB : body.brief.data <:+:
      (round2Prompt (env.decodeB64 env.indexFile.1) body.brief).data := by
    simp only [round2Prompt, String.data_append]
    exact infix_append_right _ (infix_append_left _ (List.infix_refl _))
  cases hok : env.upsertOk
  · have htr : processBuildRequest env body =
        [Event.getAuthenticated,
         Event.getContent env.login body.task "index.html",
         Event.llmGenerate "gemini-pro"
           (round2Prompt (env.decodeB64 env.indexFile.1) body.brief),
         Event.upsertFile env.login body.task "index.html"
           "Feat: Update application based on round 2 brief"
           (stripFence (env.llmPro
             (round2Prompt (env.decodeB64 env.indexFile.1) body.brief)))
           (some env.indexFile.2)] := by
      unfold processBuildRequest
      rw [processBuildRequestE_round2_stale env body hr hok]
    refine ⟨⟨round2Prompt (env.decodeB64 env.indexFile.1) body.brief,
      ?_, hD, hB⟩, ?_, ?_⟩
    · rw [htr]
      exact List.mem_cons_of_mem _ (List.mem_cons_of_mem _
        (List.mem_cons_self _ _))
    · intro o r pa ms ct sh hmem
      rw [htr] at hmem
      simp only [List.mem_cons, List.not_mem_nil, or_false] at hmem
      rcases hmem with h | h | h | h
      · simp at h
      · simp at h
      · simp at h
      · simp only [Event.upsertFile.injEq] at h
        exact h.2.2.2.2.2
    · intro _ u p hmem
      rw [htr] at hmem
      simp at hmem
  · have htr := processBuildRequest_round2_eq env body hr hok
    refine ⟨⟨round2Prompt (env.decodeB64 env.indexFile.1) body.brief,
      ?_, hD, hB⟩, ?_, ?_⟩
    · rw [htr]
      exact List.mem_cons_of_mem _ (List.mem_cons_of_mem _
        (List.mem_cons_self _ _))
    · intro o r pa ms ct sh hmem
      rw [htr] at hmem
      simp only [List.mem_cons] at hmem
      rcases hmem with h | h | h | h | h | h
      · simp at h
      · simp at h
      · simp at h
      · simp only [Event.upsertFile.injEq] at h
        exact h.2.2.2.2.2
      · simp at h
      · rcases mem_notifySection h with hx | ⟨k, hx⟩ | hx <;> simp at hx
    · intro hfail
      simp at hfail

/-- C2 witness: the revision prompt of a concrete round-2 request contains
the existing document and the new brief. -/
theorem c2_round2_revise_witness :
    ∃ P, Event.llmGenerate "gemini-pro" P ∈ processBuildRequest env0 body2 ∧
      (env0.decodeB64 env0.indexFile.1).data <:+: P.data ∧
      body2.brief.data <:+: P.data :=
  (c2_round2_revise env0 body2 rfl).1

/-- C7: the post-round phase reads the latest commit on the default branch
first, every notification it posts goes to the request's evaluation URL
carrying exactly the echoed request fields plus the derived repository URL,
commit sha and Pages URL, a 5-second delay precedes the first notification
attempt for round 1, and no delay precedes it for any other round. -/
theorem c7_post_round_payload (env : Env) (body : BuildRequest)
    (login : String) :
    (postRound env body login)[0]? =
      some (Event.getCommit login body.task "heads/main") ∧
    (∀ u p, Event.notifyPost u p ∈ postRound env body login →
      u = body.evaluation_url ∧
      p = { email := body.email, task := body.task, round := body.round,
            nonce := body.nonce,
            repo_url := "https://github.com/" ++ login ++ "/" ++ body.task,
            commit_sha := env.commitSha,
            pages_url :=
              "https://" ++ login ++ ".github.io/" ++ body.task ++ "/" }) ∧
    (body.round = 1 →
      (postRound env body login)[1]? = some (Event.sleep 5000) ∧
      (postRound env body login)[2]? =
        some (Event.notifyPost body.evaluation_url
          (mkPayload env body login))) ∧
    (body.round ≠ 1 →
      Event.sleep 5000 ∉ postRound env body login ∧
      (postRound env body login)[1]? =
        some (Event.notifyPost body.evaluation_url
          (mkPayload env body login))) := by
  obtain ⟨t, ht⟩ := notifySection_cons env.notify body.evaluation_url
    (mkPayload env body login)
  refine ⟨by simp [postRound], ?_, ?_, ?_⟩
  · intro u p hmem
    simp only [postRound, List.mem_cons, List.mem_append] at hmem
    rcases hmem with h | h | h
    · simp at h
    · by_cases hb : body.round = 1
      · rw [if_pos hb] at h
        simp at h
      · rw [if_neg hb] at h
        simp at h
    · rcases mem_notifySection h with hx | ⟨k, hx⟩ | hx
      · simp only [Event.notifyPost.injEq] at hx
        exact ⟨hx.1, hx.2⟩
      · simp at hx
      · simp at hx
  · intro h1
    constructor
    · simp [postRound, h1]
    · simp [postRound, h1, ht]
  · intro hne
    constructor
    · intro hmem
      simp only [postRound, List.mem_cons, List.mem_append] at hmem
      rcases hmem with h | h | h
      · simp at h
      · rw [if_neg hne] at h
        simp at h
      · rcases mem_notifySection h with hx | ⟨k, hx⟩ | hx
        · simp at hx
        · simp only [Event.sleep.injEq] at hx
          exact two_pow_mul_1000_ne_5000 k hx.symm
        · simp at hx
    · simp [postRound, hne, ht]

/-- C7 witness: post-round order at a concrete round-1 request. -/
theorem c7_post_round_payload_witness :
    (postRound env0 body1 "octo")[0]? =
      some (Event.getCommit "octo" body1.task "heads/main") ∧
    (postRound env0 body1 "octo")[1]? = some (Event.sleep 5000) := by
  obtain ⟨h0, -, h1, -⟩ := c7_post_round_payload env0 body1 "octo"
  exact ⟨h0, (h1 rfl).1⟩

/-- C8: a request whose round is neither 1 nor 2 triggers no generation
call and no file write, yet still reads the latest commit of the repository
named by the task and posts a notification whose round field echoes the
unrecognized value. -/
theorem c8_unknown_round (env : Env) (body : BuildRequest)
    (h1 : body.round ≠ 1) (h2 : body.round ≠ 2) :
    (∀ m P, Event.llmGenerate m P ∉ processBuildRequest env body) ∧
    (∀ o r pa ms ct sh,
      Event.upsertFile o r pa ms ct sh ∉ processBuildRequest env body) ∧
    Event.getCommit env.login body.task "heads/main" ∈
      processBuildRequest env body ∧
    ∃ p, Event.notifyPost body.evaluation_url p ∈
        processBuildRequest env body ∧ p.round = body.round := by
  have htr := processBuildRequest_other_eq env body h1 h2
  obtain ⟨t, ht⟩ := notifySection_cons env.notify body.evaluation_url
    (mkPayload env body env.login)
  refine ⟨?_, ?_, ?_, ?_⟩
  · intro m P hmem
    rw [htr] at hmem
    simp only [List.mem_cons] at hmem
    rcases hmem with h | h | h
    · simp at h
    · simp at h
    · rcases mem_notifySection h with hx | ⟨k, hx⟩ | hx <;> simp at hx
  · intro o r pa ms ct sh hmem
    rw [htr] at hmem
    simp only [List.mem_cons] at hmem
    rcases hmem with h | h | h
    · simp at h
    · simp at h
    · rcases mem_notifySection h with hx | ⟨k, hx⟩ | hx <;> simp at hx
  · rw [htr]
    exact List.mem_cons_of_mem _ (List.mem_cons_self _ _)
  · refine ⟨mkPayload env body env.login, ?_, rfl⟩
    rw [htr, ht]
    exact List.mem_cons_of_mem _ (List.mem_cons_of_mem _
      (List.mem_cons_self _ _))

/-- C8 witness: a concrete round-3 request still reads the latest commit. -/
theorem c8_unknown_round_witness :
    Event.getCommit env0.login body3.task "heads/main" ∈
      processBuildRequest env0 body3 :=
  (c8_unknown_round env0 body3 (by decide) (by decide)).2.2.1

/-- C10: a round-1 request whose checks field is absent, or whose first
attachment's url carries no comma-separated inline payload, throws before
any repository operation: the only event is the identity resolution — no
repository creation, no file write, no Pages enablement and no
notification — and the round ends in an error (which the code only
logs). -/
theorem c10_round1_early_throw (env : Env) (body : BuildRequest)
    (hr : body.round = 1)
    (h : body.checks = none ∨
      ∃ a rest, body.attachments = some (a :: rest) ∧
        (a.url.splitOn ",")[1]? = none) :
    (processBuildRequestE env body).1 = [Event.getAuthenticated] ∧
    ∃ e, (processBuildRequestE env body).2 = Except.error e := by
  suffices h' : ∃ e, processBuildRequestE env body =
      ([Event.getAuthenticated], Except.error e) by
    obtain ⟨e, he⟩ := h'
    rw [he]
    exact ⟨rfl, e, rfl⟩
  rcases h with hc | ⟨a, rest, hatt, hurl⟩
  · rcases hAT : attachmentText env.decodeB64 (body.attachments.getD [])
      with e | s
    · exact ⟨e, by simp [processBuildRequestE, round1, hr, hAT]⟩
    · exact ⟨JsError.typeError "cannot read join of undefined", by
        simp [processBuildRequestE, round1, hr, hc, hAT]⟩
  · refine ⟨JsError.typeError "first argument must not be undefined", ?_⟩
    have hAT : attachmentText env.decodeB64 (body.attachments.getD []) =
        Except.error
          (JsError.typeError "first argument must not be undefined") := by
      rw [hatt]
      simp [attachmentText, hurl]
    simp [processBuildRequestE, round1, hr, hAT]

/-- C10 witness: a concrete round-1 request without checks produces only
the identity-resolution event. -/
theorem c10_round1_early_throw_witness :
    (processBuildRequestE env0 body10).1 = [Event.getAuthenticated] :=
  (c10_round1_early_throw env0 body10 rfl (Or.inl rfl)).1

/-- Claim-side description of the notification trace, for comparison with
the code: `k` failed attempts, each immediately followed by its backoff
wait of `2^i` seconds. -/
def attemptsWithWaits (url : String) (p : NotificationPayload) :
    Nat → List Event
  | 0 => []
  | k + 1 => attemptsWithWaits url p k
      ++ [Event.notifyPost url p, Event.sleep (2 ^ k * 1000)]

lemma notifyFrom_countP_notify_le (notify : Nat → Bool) (url : String)
    (p : NotificationPayload) :
    ∀ fuel i, (notifyFrom notify url p i fuel).1.countP isNotifyEv ≤ fuel := by
  intro fuel
  induction fuel with
  | zero => intro i; simp [notifyFrom]
  | succ n ih =>
    intro i
    rw [notifyFrom_succ]
    by_cases hn : notify i = true
    · rw [if_pos hn]
      simp [isNotifyEv]
    · rw [if_neg hn]
      have hrec := ih (i + 1)
      simp only [List.countP_cons, isNotifyEv]
      simp
      omega

/-- C4 counterexample: with an endpoint that always fails, the code does
not stop at the 4th failed attempt — it sleeps a further 8 seconds (the
`i = 3` backoff) before logging the final failure, so the trace is not the
claimed "4 attempts with waits of 1 s, 2 s, 4 s and nothing else but the
final-failure log". -/
theorem c4_retry_counterexample :
    notifySection (fun _ => false) "https://eval.example/cb" pay0 =
      [Event.notifyPost "https://eval.example/cb" pay0, Event.sleep 1000,
       Event.notifyPost "https://eval.example/cb" pay0, Event.sleep 2000,
       Event.notifyPost "https://eval.example/cb" pay0, Event.sleep 4000,
       Event.notifyPost "https://eval.example/cb" pay0, Event.sleep 8000,
       Event.logFinalNotifyFailure] ∧
    notifySection (fun _ => false) "https://eval.example/cb" pay0 ≠
      [Event.notifyPost "https://eval.example/cb" pay0, Event.sleep 1000,
       Event.notifyPost "https://eval.example/cb" pay0, Event.sleep 2000,
       Event.notifyPost "https://eval.example/cb" pay0, Event.sleep 4000,
       Event.notifyPost "https://eval.example/cb" pay0,
       Event.logFinalNotifyFailure] := by
  constructor
  · rfl
  · decide

/-- C4 (amended): at most 4 delivery attempts are made; every failed
attempt `i` — including the 4th (`i = 3`) — is immediately followed by a
wait of `2^i` seconds; success on an attempt stops retrying at once; and
when all 4 attempts fail, the trace is exactly 4 attempt/wait pairs
(waits 1 s, 2 s, 4 s, 8 s) followed by the final-failure log and nothing
else. -/
theorem c4_retry_policy_amended (notify : Nat → Bool) (url : String)
    (p : NotificationPayload) :
    (notifySection notify url p).countP isNotifyEv ≤ 4 ∧
    (∀ k, k < 4 → notify k = true → (∀ j, j < k → notify j = false) →
      notifySection notify url p =
        attemptsWithWaits url p k ++ [Event.notifyPost url p]) ∧
    ((∀ j, j < 4 → notify j = false) →
      notifySection notify url p =
        attemptsWithWaits url p 4 ++ [Event.logFinalNotifyFailure]) := by
  refine ⟨?_, ?_, ?_⟩
  · unfold notifySection
    by_cases hs : (notifyFrom notify url p 0 4).2 = true
    · rw [if_pos hs]
      exact notifyFrom_countP_notify_le notify url p 4 0
    · rw [if_neg hs]
      rw [List.countP_append]
      have hle := notifyFrom_countP_notify_le notify url p 4 0
      have hlog : List.countP isNotifyEv [Event.logFinalNotifyFailure] = 0 := rfl
      omega
  · intro k hk ht he
    interval_cases k
    · simp [notifySection, notifyFrom, ht, attemptsWithWaits]
    · have e0 := he 0 (by omega)
      simp [notifySection, notifyFrom, e0, ht, attemptsWithWaits]
    · have e0 := he 0 (by omega)
      have e1 := he 1 (by omega)
      simp [notifySection, notifyFrom, e0, e1, ht, attemptsWithWaits]
    · have e0 := he 0 (by omega)
      have e1 := he 1 (by omega)
      have e2 := he 2 (by omega)
      simp [notifySection, notifyFrom, e0, e1, e2, ht, attemptsWithWaits]
  · intro he
    have e0 := he 0 (by omega)
    have e1 := he 1 (by omega)
    have e2 := he 2 (by omega)
    have e3 := he 3 (by omega)
    simp [notifySection, notifyFrom, e0, e1, e2, e3, attemptsWithWaits]

/-- C4 amended witness: an endpoint failing once then succeeding yields
attempt, 1-second wait, attempt — and stops. -/
theorem c4_retry_policy_amended_witness :
    notifySection (fun i => decide (i = 1)) "https://eval.example/cb" pay0 =
      attemptsWithWaits "https://eval.example/cb" pay0 1 ++
        [Event.notifyPost "https://eval.example/cb" pay0] :=
  (c4_retry_policy_amended (fun i => decide (i = 1))
      "https://eval.example/cb" pay0).2.1 1 (by omega) (by decide)
    (fun j hj => by interval_cases j; decide)

end AutoAppBuilder
